import Mathlib

/-!
Verification of the donation payment lifecycle subsystem of the
sdarmitalia-server repository.

The definitions below are a shallow embedding of the JavaScript source:

* `src/models/donazioniModel.js` — the donation ledger entity and `getStats`;
* `src/controller/projectPhaseController.js` — `createPaymentIntent`,
  `confirmPayment`, `handleWebhook`, `handlePaymentSuccess`,
  `handlePaymentFailed`, `handleRefund`, `getRecentDonations`,
  `getBeneficiaryInfo`, `maskIBAN`;
* `src/unnamed/part_007` (rateLimiter.js) — `SimpleRateLimiter`;
* `src/utils/transactionLogger.js` — `readDayTransactions`.

Numbers carried by JavaScript are modelled as rationals where a value can be
fractional (money amounts in euros) and as naturals where the source only
ever holds non-negative integers (timestamps in milliseconds, counters).
External collaborators (the Stripe gateway, `JSON.parse`) are modelled as
parameters supplying their observable outcome.
-/

/-- The `status` enum of the donation schema (donazioniModel.js). -/
inductive DStatus
  | pending
  | processing
  | completed
  | failed
  | refunded
  | cancelled
deriving DecidableEq, Repr

/-- A donation ledger record, with the schema fields that the modelled
operations read or write.  `importo` is the stored amount exactly as the
controller writes it (the schema documents it as integer cents; the
controller writes the request's euro value).  Timestamps are milliseconds. -/
structure Donazione where
  importo : ℚ
  email : String
  nome : String
  telefono : Option String
  messaggio : Option String
  anonimo : Bool
  tipo : String
  categoria : String
  ricevuta : Bool
  status : DStatus
  stripePaymentIntentId : Option String
  stripeChargeId : Option String
  stripeErrorMessage : Option String
  tentativi : ℕ
  recurringActive : Bool
  dataProcessamento : Option ℕ
  dataPagamento : Option ℕ
deriving DecidableEq, Repr

/-- The projection of a record onto the fields that `getStats` aggregates
over (status, amount, category, kind, recurring-active flag). -/
structure StatsKey where
  status : DStatus
  importo : ℚ
  categoria : String
  tipo : String
  recurringActive : Bool
deriving DecidableEq, Repr

/-- Project a ledger record onto its statistics-relevant fields. -/
def statsProj (d : Donazione) : StatsKey :=
  { status := d.status
    importo := d.importo
    categoria := d.categoria
    tipo := d.tipo
    recurringActive := d.recurringActive }

/-- Model of `findOneAndUpdate`: update the first record satisfying the filter,
leaving every other record untouched (Mongo updates a single document). -/
def updateFirst (p : Donazione → Bool) (f : Donazione → Donazione) :
    List Donazione → List Donazione
  | [] => []
  | d :: rest => if p d then f d :: rest else d :: updateFirst p f rest

/-- The update object of `handlePaymentSuccess` (and of the succeeded branch
of `confirmPayment`, which is textually identical in the controller):
status completed, charge id, payment and processing timestamps.  A missing
charge id is an `undefined` update key, which Mongoose drops, so the stored
value is kept in that case. -/
def successUpdate (ch : Option String) (now : ℕ) (d : Donazione) : Donazione :=
  { d with
    status := DStatus.completed
    stripeChargeId := match ch with | some c => some c | none => d.stripeChargeId
    dataPagamento := some now
    dataProcessamento := some now }

/-- The update object of `handlePaymentFailed`: status failed, gateway error
message (default message when the event carries none), retry counter taken
from the event metadata, processing timestamp. -/
def failedUpdate (lastErrorMessage : Option String) (attempts : ℕ) (now : ℕ)
    (d : Donazione) : Donazione :=
  { d with
    status := DStatus.failed
    stripeErrorMessage := some (lastErrorMessage.getD "Pagamento rifiutato")
    tentativi := attempts + 1
    dataProcessamento := some now }

/-- The update object of `handleRefund`: status refunded, message recording
the charge's refunded flag, processing timestamp. -/
def refundUpdate (refunded : Bool) (now : ℕ) (d : Donazione) : Donazione :=
  { d with
    status := DStatus.refunded
    messaggio := some ("Rimborso elaborato: " ++ (if refunded then "true" else "false"))
    dataProcessamento := some now }

/-- Model of `handlePaymentSuccess(paymentIntent)`: `findOneAndUpdate` by
`stripePaymentIntentId`, applying `successUpdate` unconditionally. -/
def handlePaymentSuccess (pid : String) (ch : Option String) (now : ℕ)
    (L : List Donazione) : List Donazione :=
  updateFirst (fun d => d.stripePaymentIntentId == some pid) (successUpdate ch now) L

/-- Model of `handlePaymentFailed(paymentIntent)`: `findOneAndUpdate` by
`stripePaymentIntentId`, applying `failedUpdate` unconditionally. -/
def handlePaymentFailed (pid : String) (lastErrorMessage : Option String)
    (attempts : ℕ) (now : ℕ) (L : List Donazione) : List Donazione :=
  updateFirst (fun d => d.stripePaymentIntentId == some pid)
    (failedUpdate lastErrorMessage attempts now) L

/-- Model of `handleRefund(charge)`: `findOneAndUpdate` by `stripeChargeId`,
applying `refundUpdate` unconditionally. -/
def handleRefund (chargeId : String) (refunded : Bool) (now : ℕ)
    (L : List Donazione) : List Donazione :=
  updateFirst (fun d => d.stripeChargeId == some chargeId) (refundUpdate refunded now) L

/-- The observable content of a Stripe webhook event: its `type`, the id of
`event.data.object` (a payment intent id for payment events, a charge id for
refund events), and the object fields the handlers read. -/
structure StripeEvent where
  type : String
  objectId : String
  chargeId : Option String
  lastErrorMessage : Option String
  attempts : ℕ
  refunded : Bool
deriving DecidableEq, Repr

/-- Model of `handleWebhook`: a missing webhook secret or a failed signature
verification (`constructEvent` throws) answers 400 without touching the
ledger; otherwise the event is dispatched by type and the endpoint always
acknowledges 200, ignoring unhandled event types. -/
def handleWebhook (secretConfigured sigValid : Bool) (ev : StripeEvent)
    (L : List Donazione) (now : ℕ) : ℕ × List Donazione :=
  if !secretConfigured then (400, L)
  else if !sigValid then (400, L)
  else if ev.type == "payment_intent.succeeded" then
    (200, handlePaymentSuccess ev.objectId ev.chargeId now L)
  else if ev.type == "payment_intent.payment_failed" then
    (200, handlePaymentFailed ev.objectId ev.lastErrorMessage ev.attempts now L)
  else if ev.type == "charge.refunded" then
    (200, handleRefund ev.objectId ev.refunded now L)
  else (200, L)

/-- The result object of `Donazione.getStats()`.  The by-category breakdown
is the pair of aggregation maps keyed by category name. -/
structure DonationStats where
  totalDonations : ℚ
  donationCount : ℕ
  averageDonation : ℤ
  activeRecurring : ℕ
  failedPayments : ℕ
  byCategoryTotal : String → ℚ
  byCategoryCount : String → ℕ

/-- Model of `Donazione.getStats()`: aggregate completed donations (total, count,
rounded average), count active recurring donations and failed payments, and
break completed totals and counts down by category. -/
def getStats (L : List Donazione) : DonationStats :=
  let comp := L.filter (fun d => d.status == DStatus.completed)
  let total := (comp.map (fun d => d.importo)).sum
  let count := comp.length
  { totalDonations := total
    donationCount := count
    averageDonation := if count = 0 then 0 else round (total / (count : ℚ))
    activeRecurring :=
      (L.filter (fun d => d.tipo == "ricorrente" && d.recurringActive)).length
    failedPayments := (L.filter (fun d => d.status == DStatus.failed)).length
    byCategoryTotal := fun c =>
      ((comp.filter (fun d => d.categoria == c)).map (fun d => d.importo)).sum
    byCategoryCount := fun c =>
      (comp.filter (fun d => d.categoria == c)).length }

/-- The public projection of a donation produced by `getRecentDonations`:
the donor name (or the fixed placeholder for anonymous donations), the
rendered amount (the stored amount divided by 100), the payment date and the
category.  The rendered amount is kept as the exact rational the string
formatting would print. -/
structure FormattedDonation where
  name : String
  amount : ℚ
  date : ℕ
  category : String
deriving DecidableEq, Repr

/-- The per-donation formatting step of `getRecentDonations`. -/
def formatRecent (d : Donazione) : FormattedDonation :=
  { name := if d.anonimo then "Anonimo" else d.nome
    amount := d.importo / 100
    date := d.dataPagamento.getD 0
    category := d.categoria }

/-- The sort key of `.sort(bracket dataPagamento: -1 bracket)`: the payment
date, with an absent date ordered lowest. -/
def pagKey (d : Donazione) : ℕ :=
  d.dataPagamento.getD 0

/-- Insert a record into a list sorted by descending payment date (model of
the store's order-by). -/
def insertDesc (d : Donazione) : List Donazione → List Donazione
  | [] => [d]
  | x :: xs => if pagKey x < pagKey d then d :: x :: xs else x :: insertDesc d xs

/-- Sort records by descending payment date (model of the store's
order-by; the store applies the sort before the limit). -/
def sortByPagDesc : List Donazione → List Donazione
  | [] => []
  | x :: xs => insertDesc x (sortByPagDesc xs)

/-- Model of `getRecentDonations`: clamp the requested limit
(`Math.min(parseInt(limit) || 10, 50)`), keep completed donations, order by
payment date descending, truncate, and format each record. -/
def getRecentDonations (L : List Donazione) (limitQ : Option ℕ) :
    List FormattedDonation :=
  let l := limitQ.getD 10
  let lim := min (if l = 0 then 10 else l) 50
  ((sortByPagDesc (L.filter (fun d => d.status == DStatus.completed))).take lim).map
    formatRecent

/-- Two ledger records are related when they agree on every field except
possibly the donor name, and may disagree on the donor name only if the
record is anonymous. -/
def SameUpToAnonName (d d' : Donazione) : Prop :=
  d' = { d with nome := d'.nome } ∧ (d.anonimo = true ∨ d.nome = d'.nome)

/-- Model of `maskIBAN`: keep only the last 4 characters, preceded by asterisks. -/
def maskIBAN (iban : String) : String :=
  if iban.length < 4 then "****" else "****" ++ iban.drop (iban.length - 4)

/-- The environment-derived beneficiary configuration
(`BENEFICIARY_NAME/IBAN/BIC/EMAIL/PHONE`). -/
structure BeneficiaryEnv where
  name : String
  iban : String
  bic : String
  email : String
  phone : String
deriving DecidableEq, Repr

/-- The client-visible payload of `GET /api/donazioni/beneficiary`. -/
structure BeneficiaryResponse where
  name : String
  iban : String
  fullIban : String
  bic : String
  email : String
  phone : String
deriving DecidableEq, Repr

/-- Model of `getBeneficiaryInfo`: the 200 payload built from the environment.  The
source includes the unmasked IBAN under `fullIban` (commented as intended
for admins) even though the endpoint performs no authentication. -/
def getBeneficiaryInfo (env : BeneficiaryEnv) : BeneficiaryResponse :=
  { name := env.name
    iban := maskIBAN env.iban
    fullIban := env.iban
    bic := env.bic
    email := env.email
    phone := env.phone }

/-- The metadata attached to the Stripe payment-intent creation call. -/
structure GatewayMetadata where
  email : String
  nome : String
  categoria : String
  organization : String
deriving DecidableEq, Repr

/-- An observable side effect of `createPaymentIntent`, in execution order:
either the gateway call (`stripe.paymentIntents.create`) with the arguments
the controller passes, or a ledger insertion (`Donazione.create`). -/
inductive LedgerEffect
  | gatewayCreate (amountCents : ℤ) (currency : String) (md : GatewayMetadata)
      (receiptEmail : Option String) (description : String)
  | ledgerInsert (d : Donazione)
deriving DecidableEq, Repr

/-- Whether an effect is the gateway payment-intent creation call. -/
def isGatewayCreate : LedgerEffect → Bool
  | LedgerEffect.gatewayCreate _ _ _ _ _ => true
  | LedgerEffect.ledgerInsert _ => false

/-- The outcome of the external gateway call, as the catch clause of
`createPaymentIntent` distinguishes it: success carries the intent id and
client secret; failures carry the Stripe error type (an unlisted type is an
unmapped error). -/
inductive GatewayOutcome
  | ok (paymentIntentId clientSecret : String)
  | errAuth
  | errPermission
  | errInvalidRequest (msg : String)
  | errRateLimit
  | errOther (msg : String)
deriving DecidableEq, Repr

/-- The HTTP status `createPaymentIntent` answers for each gateway outcome
(after validation has passed). -/
def gatewayHttpStatus : GatewayOutcome → ℕ
  | GatewayOutcome.ok _ _ => 200
  | GatewayOutcome.errAuth => 401
  | GatewayOutcome.errPermission => 403
  | GatewayOutcome.errInvalidRequest _ => 400
  | GatewayOutcome.errRateLimit => 429
  | GatewayOutcome.errOther _ => 500

/-- The body of `POST /api/donazioni/create-payment-intent`.  A field is
`none` when absent from the request (or, for `importo`, not a number). -/
structure DonationRequest where
  importo : Option ℚ
  email : Option String
  nome : Option String
  telefono : Option String
  messaggio : Option String
  anonimo : Bool
  categoria : Option String
  ricevuta : Bool
deriving DecidableEq, Repr

/-- Model of the JavaScript `String.prototype.trim` builtin: remove
whitespace from both ends (written over the character list so that it
evaluates by kernel reduction). -/
def jsTrim (s : String) : String :=
  String.mk (((s.toList.dropWhile Char.isWhitespace).reverse.dropWhile
    Char.isWhitespace).reverse)

/-- Model of the JavaScript `String.prototype.toLowerCase` builtin. -/
def jsToLower (s : String) : String :=
  String.mk (s.toList.map Char.toLower)

/-- Split a character list on newline characters (the
`content.split` step of `readDayTransactions`). -/
def splitNl : List Char → List (List Char)
  | [] => [[]]
  | c :: rest =>
    let r := splitNl rest
    if c = '\n' then [] :: r
    else
      match r with
      | a :: t => (c :: a) :: t
      | [] => [[c]]

/-- Split a file content string into its lines. -/
def splitLinesStr (s : String) : List String :=
  (splitNl s.toList).map (fun l => String.mk l)

/-- Model of the email test: one at sign, no whitespace anywhere, a
non-empty local part, and a domain containing a dot that has at least one
character on each side (the backtracking semantics of the source pattern). -/
def emailRegexTest (s : String) : Bool :=
  let cs := s.toList
  let localPart := cs.takeWhile (fun c => c != '@')
  let rest := cs.dropWhile (fun c => c != '@')
  match rest with
  | [] => false
  | _ :: domain =>
    cs.all (fun c => !c.isWhitespace) &&
    !domain.contains '@' &&
    !localPart.isEmpty &&
    ((domain.drop 1).dropLast.contains '.')

/-- All remainders obtainable by consuming one optional character satisfying
`p` (a regex `X?` piece: both consuming and not consuming are offered). -/
def consumeOptChar (p : Char → Bool) (l : List Char) : List (List Char) :=
  match l with
  | c :: rest => if p c then [rest, l] else [l]
  | [] => [l]

/-- All remainders obtainable by consuming between 1 and `n` digits. -/
def digits1to : ℕ → List Char → List (List Char)
  | 0, _ => []
  | n + 1, c :: rest => if c.isDigit then rest :: digits1to n rest else []
  | _ + 1, [] => []

/-- A separator character of the phone pattern: whitespace or a dash. -/
def phoneSep (c : Char) : Bool :=
  c.isWhitespace || c == '-'

/-- Model of the phone test, enumerating every backtracking choice of the
source pattern: an optional country-code group (optional plus, 1-3 digits,
optional separator), an optional opening bracket, 1-4 digits, an optional
closing bracket, an optional separator, 1-4 digits, an optional separator,
and 1-9 digits, consuming the whole string. -/
def phoneRegexTest (s : String) : Bool :=
  let l0 := s.toList
  let afterGroup : List (List Char) :=
    l0 :: (((consumeOptChar (fun c => c == '+') l0).map (fun l1 =>
      ((digits1to 3 l1).map (consumeOptChar phoneSep)).flatten)).flatten)
  let afterOpen := (afterGroup.map (consumeOptChar (fun c => c == '('))).flatten
  let afterD1 := (afterOpen.map (digits1to 4)).flatten
  let afterClose := (afterD1.map (consumeOptChar (fun c => c == ')'))).flatten
  let afterSep1 := (afterClose.map (consumeOptChar phoneSep)).flatten
  let afterD2 := (afterSep1.map (digits1to 4)).flatten
  let afterSep2 := (afterD2.map (consumeOptChar phoneSep)).flatten
  let afterD3 := (afterSep2.map (digits1to 9)).flatten
  afterD3.any (fun l => l.isEmpty)

/-- The fixed category enum accepted by the controller and the schema. -/
def validCategories : List String :=
  ["generale", "chiesa", "progetti", "educazione", "carità", "missioni"]

/-- The sequential input validation of `createPaymentIntent`: the first
failing check determines the 400 message; `none` means every check passed.
A present-but-empty phone, message or category is skipped exactly where the
source's truthiness guard skips it. -/
def validationCheck (req : DonationRequest) : Option String :=
  match req.importo with
  | none => some "Importo non valido. Minimo €0.01"
  | some q =>
    if q ≤ 0 then some "Importo non valido. Minimo €0.01"
    else if round (q * 100) < 1 then some "Importo non valido. Minimo €0.01"
    else
      match req.email with
      | none => some "Email non valida"
      | some email =>
        if !emailRegexTest email then some "Email non valida"
        else
          match req.nome with
          | none => some "Nome non valido (2-100 caratteri)"
          | some nome =>
            if (jsTrim nome).length < 2 ∨ nome.length > 100 then
              some "Nome non valido (2-100 caratteri)"
            else if (match req.telefono with
                     | some t => t != "" && !phoneRegexTest t
                     | none => false) then
              some "Numero di telefono non valido"
            else if (match req.messaggio with
                     | some m => m != "" && decide (m.length > 500)
                     | none => false) then
              some "Messaggio troppo lungo (max 500 caratteri)"
            else if (let c := req.categoria.getD "generale"
                     c != "" && !validCategories.contains c) then
              some "Categoria non valida"
            else none

/-- The gateway call `createPaymentIntent` issues once validation passed:
the rounded cent amount, euro currency, the metadata object (donor email,
name, category, plus the fixed organization tag), the receipt email when
requested, and the description string. -/
def requestGatewayEffect (req : DonationRequest) : LedgerEffect :=
  LedgerEffect.gatewayCreate (round ((req.importo.getD 0) * 100)) "eur"
    { email := req.email.getD ""
      nome := req.nome.getD ""
      categoria := req.categoria.getD "generale"
      organization := "SDA_ITALIA" }
    (if req.ricevuta then some (req.email.getD "") else none)
    ("Donazione SDA Italia - " ++ req.categoria.getD "generale")

/-- The observable result of `createPaymentIntent`: HTTP status, the side
effects in execution order, the response message, and on success the
rendered amount (cents divided by 100), client secret and masked IBAN. -/
structure CreateResult where
  status : ℕ
  effects : List LedgerEffect
  message : String
  reportedAmount : Option ℚ
  clientSecret : Option String
  maskedIban : Option String
deriving DecidableEq, Repr

/-- The ledger row `createPaymentIntent` hands to `Donazione.create` for a
validated request once the gateway returned intent `pid`: the euro amount
kept as sent, the normalized donor fields, the intent id and status
processing. -/
def mkDonazione (req : DonationRequest) (pid : String) (now : ℕ) : Donazione :=
  { importo := req.importo.getD 0
    email := jsToLower (req.email.getD "")
    nome := jsTrim (req.nome.getD "")
    telefono :=
      match req.telefono with
      | some t => if t = "" then none else some (jsTrim t)
      | none => none
    messaggio :=
      match req.messaggio with
      | some m => if m = "" then none else some (jsTrim m)
      | none => none
    anonimo := req.anonimo
    tipo := "singola"
    categoria := req.categoria.getD "generale"
    ricevuta := req.ricevuta
    status := DStatus.processing
    stripePaymentIntentId := some pid
    stripeChargeId := none
    stripeErrorMessage := none
    tentativi := 0
    recurringActive := false
    dataProcessamento := some now
    dataPagamento := none }

/-- The `tipo` enum of the donation schema. -/
def validTipos : List String :=
  ["singola", "ricorrente", "campagna"]

/-- The schema validators `Donazione.create` runs (donazioniModel.js): the
amount must be a whole number (the integer-cents validator) of at least 1,
the stored email must match the schema's email pattern, the name must be
2-100 characters, a present phone must be empty or match the phone pattern,
a message is capped at 500 characters, and `categoria` and `tipo` must lie
in their enums.  A row that fails any of these makes `create` throw. -/
def donazioneSchemaValid (d : Donazione) : Bool :=
  (d.importo.den == 1) && (1 ≤ d.importo) &&
  emailRegexTest d.email &&
  (2 ≤ d.nome.length && d.nome.length ≤ 100) &&
  (match d.telefono with
   | some t => t == "" || phoneRegexTest t
   | none => true) &&
  (match d.messaggio with
   | some m => decide (m.length ≤ 500)
   | none => true) &&
  validCategories.contains d.categoria &&
  validTipos.contains d.tipo

/-- The post-validation phase of `createPaymentIntent`: call the gateway
first; on success hand one ledger row — the euro amount, the normalized
donor fields, the intent id, status processing — to `Donazione.create` and
answer 200, unless the schema validators reject the row, in which case
`create` throws, the catch clause finds no Stripe error type, and the
endpoint answers the generic 500 with no ledger row (though the payment
intent exists at the gateway); on a gateway failure answer the mapped
status with no ledger write. -/
def gatewayPhase (req : DonationRequest) (gw : GatewayOutcome)
    (env : BeneficiaryEnv) (now : ℕ) : CreateResult :=
  let q := req.importo.getD 0
  let amountInCents := round (q * 100)
  let gEff := requestGatewayEffect req
  match gw with
  | GatewayOutcome.ok pid secret =>
    let donazione := mkDonazione req pid now
    if donazioneSchemaValid donazione then
      { status := 200
        effects := [gEff, LedgerEffect.ledgerInsert donazione]
        message := "Payment intent creato con successo"
        reportedAmount := some ((amountInCents : ℚ) / 100)
        clientSecret := some secret
        maskedIban := some (maskIBAN env.iban) }
    else
      { status := 500, effects := [gEff]
        message := "Errore nel processamento del pagamento"
        reportedAmount := none, clientSecret := none, maskedIban := none }
  | GatewayOutcome.errAuth =>
    { status := 401, effects := [gEff], message := "Errore di configurazione pagamento"
      reportedAmount := none, clientSecret := none, maskedIban := none }
  | GatewayOutcome.errPermission =>
    { status := 403, effects := [gEff], message := "Non autorizzato"
      reportedAmount := none, clientSecret := none, maskedIban := none }
  | GatewayOutcome.errInvalidRequest msg =>
    { status := 400, effects := [gEff], message := msg
      reportedAmount := none, clientSecret := none, maskedIban := none }
  | GatewayOutcome.errRateLimit =>
    { status := 429, effects := [gEff], message := "Troppi tentativi. Riprova tra un momento."
      reportedAmount := none, clientSecret := none, maskedIban := none }
  | GatewayOutcome.errOther _ =>
    { status := 500, effects := [gEff], message := "Errore nel processamento del pagamento"
      reportedAmount := none, clientSecret := none, maskedIban := none }

/-- Model of `createPaymentIntent`: run the sequential validation (a failure answers
400 with no side effect at all), then the gateway phase. -/
def createPaymentIntent (req : DonationRequest) (gw : GatewayOutcome)
    (env : BeneficiaryEnv) (now : ℕ) : CreateResult :=
  match validationCheck req with
  | some msg =>
    { status := 400, effects := [], message := msg
      reportedAmount := none, clientSecret := none, maskedIban := none }
  | none => gatewayPhase req gw env now

/-- Model of `confirmPayment`: given the intent id from the body, the gateway-reported
intent status and charge id, update the matching donation to completed (the
same update object as the success webhook) and report the stored amount
divided by 100; 400 on a missing id or a non-succeeded intent, 404 when no
record matches. -/
def confirmPayment (pid : Option String) (intentStatus : String)
    (ch : Option String) (now : ℕ) (L : List Donazione) :
    ℕ × List Donazione × Option ℚ :=
  match pid with
  | none => (400, L, none)
  | some p =>
    if intentStatus == "succeeded" then
      let L' := handlePaymentSuccess p ch now L
      match L'.find? (fun d => d.stripePaymentIntentId == some p) with
      | none => (404, L', none)
      | some d => (200, L', some (d.importo / 100))
    else (400, L, none)

/-- The rendered total of `getDonationStats`
(`totalDonationsFormatted`): the aggregated stored total divided by 100. -/
def statsRenderedTotal (L : List Donazione) : ℚ :=
  (getStats L).totalDonations / 100

/-- Modelled from the spec: the status-transition graph of section 4.2
(pending to processing to completed to refunded, processing to failed, and
pending or processing to cancelled).  Used only to compare the spec's
allowed transitions with what the code performs. -/
def specAllowedEdge : DStatus → DStatus → Bool
  | DStatus.pending, DStatus.processing => true
  | DStatus.processing, DStatus.completed => true
  | DStatus.completed, DStatus.refunded => true
  | DStatus.processing, DStatus.failed => true
  | DStatus.pending, DStatus.cancelled => true
  | DStatus.processing, DStatus.cancelled => true
  | _, _ => false

/-- Model of `line.match` with the log-line pattern: a JSON object can be
extracted from a line exactly when the line ends with a closing brace and
contains an opening brace; the extract runs from the leftmost opening brace
to the end of the line. -/
def extractJson (line : String) : Option String :=
  let cs := line.toList
  if (cs.getLast? == some '\x7d') && cs.contains '\x7b' then
    some (String.mk (cs.dropWhile (fun c => c != '\x7b')))
  else none

/-- One mapping step of `readDayTransactions`: extract the JSON text of a
line and hand it to the (external) `JSON.parse`, modelled by the `parse`
parameter; any failure yields `none` (the JS callback returns `null`). -/
def parseLogLine {α : Type} (parse : String → Option α) (line : String) :
    Option α :=
  (extractJson line).bind parse

/-- The per-line pipeline of `readDayTransactions` after splitting the file
content on newlines: drop blank lines, map each line through extraction and
parsing, and keep the non-null results (`.filter(Boolean)`). -/
def readDayLines {α : Type} (parse : String → Option α) (ls : List String) :
    List α :=
  ((ls.filter (fun l => jsTrim l != "")).map (parseLogLine parse)).reduceOption

/-- Model of `readDayTransactions`: split the day's file content on newlines and run
the per-line pipeline. -/
def readDayTransactions {α : Type} (parse : String → Option α)
    (content : String) : List α :=
  readDayLines parse (splitLinesStr content)

/-- A client's window record in the rate limiter store: request count and
the window's reset time (milliseconds). -/
structure ClientData where
  count : ℕ
  resetTime : ℕ
deriving DecidableEq, Repr

/-- The `rateLimitInfo` object attached to the response: limit, current
count, remaining requests and the window reset time. -/
structure RateLimitInfo where
  limit : ℕ
  current : ℕ
  remaining : ℕ
  resetTime : ℕ
deriving DecidableEq, Repr

/-- The observable outcome of the rate limiter middleware on one request:
continue to the next handler, or answer 429 with the configured message and
a retry-after duration in seconds; both outcomes carry the metadata. -/
inductive LimitOutcome
  | allowed (info : RateLimitInfo)
  | rejected (httpStatus : ℕ) (message : String) (retryAfter : ℕ) (info : RateLimitInfo)
deriving DecidableEq, Repr

/-- The configuration of a `SimpleRateLimiter` instance. -/
structure SimpleRateLimiter where
  maxRequests : ℕ
  windowMs : ℕ
  message : String
deriving DecidableEq, Repr

/-- The limiter's in-memory store, keyed by client IP. -/
def RLStore : Type := String → Option ClientData

/-- The empty store a limiter starts with. -/
def emptyStore : RLStore := fun _ => none

/-- The lookup-or-create step of the middleware: reuse the stored window
record unless it is absent or expired (strictly past its reset time), in
which case a fresh record with count 0 and reset time now plus the window
duration is used. -/
def effectiveWindow (L : SimpleRateLimiter) (s : RLStore) (ip : String)
    (now : ℕ) : ClientData :=
  match s ip with
  | some cd =>
    if now > cd.resetTime then { count := 0, resetTime := now + L.windowMs } else cd
  | none => { count := 0, resetTime := now + L.windowMs }

/-- One request through `SimpleRateLimiter.middleware()`: take the effective
window record, increment its count, store it back, attach the metadata, and
reject with 429 and the ceiling of the remaining window time in seconds when
the post-increment count exceeds the maximum. -/
def rlStep (L : SimpleRateLimiter) (s : RLStore) (ip : String) (now : ℕ) :
    RLStore × LimitOutcome :=
  let cd0 := effectiveWindow L s ip now
  let cd : ClientData := { count := cd0.count + 1, resetTime := cd0.resetTime }
  let s' : RLStore := fun k => if k = ip then some cd else s k
  let remaining := L.maxRequests - cd.count
  let info : RateLimitInfo :=
    { limit := L.maxRequests, current := cd.count, remaining := remaining
      resetTime := cd.resetTime }
  if cd.count > L.maxRequests then
    (s', LimitOutcome.rejected 429 L.message ((cd.resetTime - now + 999) / 1000) info)
  else
    (s', LimitOutcome.allowed info)

/-- Model of `SimpleRateLimiter.reset(ip)`: delete that client's record, reporting
whether one existed (`Map.delete`). -/
def rlReset (s : RLStore) (ip : String) : Bool × RLStore :=
  ((s ip).isSome, fun k => if k = ip then none else s k)

/-- Model of `SimpleRateLimiter.resetAll()`: clear the whole store. -/
def rlResetAll : RLStore := fun _ => none

/-- A limiter configured with five requests per 1000 ms window, for the
six-requests scenario. -/
def limiter5 : SimpleRateLimiter :=
  { maxRequests := 5, windowMs := 1000, message := "Too many requests" }

/-- The store of `limiter5` after `n` requests from client c, all at time 0,
starting from the empty store. -/
def scenarioStore : ℕ → RLStore
  | 0 => emptyStore
  | n + 1 => (rlStep limiter5 (scenarioStore n) "c" 0).1

/-- A well-formed sample donation request: 50 euros, valid email and name,
no optional fields. -/
def sampleReq : DonationRequest :=
  { importo := some 50
    email := some "a@b.com"
    nome := some "Ann Lee"
    telefono := none
    messaggio := none
    anonimo := false
    categoria := none
    ricevuta := false }

/-- The rational 50.5, the euro amount of a fractional donation request,
given by its reduced numerator and denominator. -/
def fiftyAndHalf : ℚ := ⟨101, 2, by decide, by decide⟩

/-- A donation request for 50.50 euros: the controller's validation accepts
it (the amount is positive and rounds to 5050 cents), but the schema's
integer-cents validator rejects the row the controller builds from it. -/
def fracReq : DonationRequest :=
  { sampleReq with importo := some fiftyAndHalf }

/-- A donation request carrying an explicitly empty category: the
controller's truthiness guard skips the enum check for it, but the schema's
`categoria` enum rejects the row. -/
def emptyCatReq : DonationRequest :=
  { sampleReq with categoria := some "" }

/-- A sample beneficiary environment with a full-length IBAN. -/
def sampleEnv : BeneficiaryEnv :=
  { name := "SDA Italia"
    iban := "IT60X0542811101000000123456"
    bic := "BPMOIT22"
    email := "info@example.org"
    phone := "+39 06 0000000" }

/-- The ledger record `createPaymentIntent` inserts for `sampleReq` when the
gateway returns intent pi_1 at time 0: the euro amount 50 is stored while
5000 cents were sent to the gateway. -/
def insertedDon : Donazione :=
  { importo := 50
    email := "a@b.com"
    nome := "Ann Lee"
    telefono := none
    messaggio := none
    anonimo := false
    tipo := "singola"
    categoria := "generale"
    ricevuta := false
    status := DStatus.processing
    stripePaymentIntentId := some "pi_1"
    stripeChargeId := none
    stripeErrorMessage := none
    tentativi := 0
    recurringActive := false
    dataProcessamento := some 0
    dataPagamento := none }

/-- A donation sitting in the refunded state, used to probe off-graph
webhook transitions. -/
def refundedDon : Donazione :=
  { insertedDon with
    status := DStatus.refunded
    stripeChargeId := some "ch_1"
    dataPagamento := some 10 }

/-- An anonymous completed donation. -/
def anonDonA : Donazione :=
  { insertedDon with
    nome := "Maria Rossi"
    anonimo := true
    status := DStatus.completed
    dataPagamento := some 300 }

/-- The same anonymous donation with a different stored donor name. -/
def anonDonA' : Donazione :=
  { anonDonA with nome := "Giulia Bianchi" }

/-- A non-anonymous completed donation. -/
def namedDonB : Donazione :=
  { insertedDon with
    nome := "Luca Verdi"
    stripePaymentIntentId := some "pi_2"
    status := DStatus.completed
    dataPagamento := some 200 }

/-- A sample succeeded-payment webhook event for an intent id no ledger
record carries. -/
def unknownPidEvent : StripeEvent :=
  { type := "payment_intent.succeeded"
    objectId := "pi_unknown"
    chargeId := some "ch_9"
    lastErrorMessage := none
    attempts := 0
    refunded := false }

/-- A sample parse function standing in for `JSON.parse` on this day's
records: it recognizes exactly the two payloads of the sample log lines. -/
def sampleParse (s : String) : Option ℕ :=
  if s = "\x7b\x22a\x22:1\x7d" then some 1
  else if s = "\x7b\x22b\x22:2\x7d" then some 2
  else none

/-- A sample limiter store holding one client window (client a, three
requests, reset time 500). -/
def sampleStore : RLStore :=
  fun k => if k = "a" then some { count := 3, resetTime := 500 } else none

/-- A `findOneAndUpdate` with a filter nothing satisfies leaves the ledger
unchanged. -/
theorem updateFirst_of_no_match {p : Donazione → Bool} {f : Donazione → Donazione} :
    ∀ {L : List Donazione}, (∀ d ∈ L, p d = false) → updateFirst p f L = L := by
  intro L
  induction L with
  | nil => intro _; rfl
  | cons d rest ih =>
    intro h
    have hd := h d (List.mem_cons_self d rest)
    simp only [updateFirst, hd, if_neg]
    simp only [Bool.false_eq_true, if_false, List.cons.injEq, true_and]
    exact ih fun x hx => h x (List.mem_cons_of_mem d hx)

/-- A `findOneAndUpdate` never creates or deletes records. -/
theorem updateFirst_length (p : Donazione → Bool) (f : Donazione → Donazione) :
    ∀ L : List Donazione, (updateFirst p f L).length = L.length := by
  intro L
  induction L with
  | nil => rfl
  | cons d rest ih =>
    by_cases h : p d
    · simp [updateFirst, h]
    · simp [updateFirst, h, ih]

/-- A `findOneAndUpdate` rewrites exactly the first matching record. -/
theorem updateFirst_decomp {p : Donazione → Bool} {f : Donazione → Donazione} :
    ∀ (pre : List Donazione) (d : Donazione) (rest : List Donazione),
      (∀ x ∈ pre, p x = false) → p d = true →
      updateFirst p f (pre ++ d :: rest) = pre ++ f d :: rest := by
  intro pre
  induction pre with
  | nil =>
    intro d rest _ hd
    simp [updateFirst, hd]
  | cons x xs ih =>
    intro d rest hpre hd
    have hx := hpre x (List.mem_cons_self x xs)
    simp only [List.cons_append, updateFirst, hx, Bool.false_eq_true, if_false,
      List.cons.injEq, true_and]
    exact ih d rest (fun y hy => hpre y (List.mem_cons_of_mem x hy)) hd

/-- Every record of an updated ledger is either an original record or the
update of an original record. -/
theorem updateFirst_mem {p : Donazione → Bool} {f : Donazione → Donazione} :
    ∀ {L : List Donazione} {d' : Donazione}, d' ∈ updateFirst p f L →
      d' ∈ L ∨ ∃ d, d ∈ L ∧ d' = f d := by
  intro L
  induction L with
  | nil => intro d' h; cases h
  | cons d rest ih =>
    intro d' h
    by_cases hd : p d
    · simp only [updateFirst, hd, if_pos, List.mem_cons] at h
      rcases h with h | h
      · exact Or.inr ⟨d, List.mem_cons_self d rest, h⟩
      · exact Or.inl (List.mem_cons_of_mem d h)
    · simp only [updateFirst, hd, Bool.false_eq_true, if_false, List.mem_cons] at h
      rcases h with h | h
      · exact Or.inl (h ▸ List.mem_cons_self d rest)
      · rcases ih h with h' | ⟨x, hx, hfx⟩
        · exact Or.inl (List.mem_cons_of_mem d h')
        · exact Or.inr ⟨x, List.mem_cons_of_mem d hx, hfx⟩

/-- Equal stats projections transport through a `map` of any projection
component. -/
theorem map_proj_comp {γ : Type} (g : StatsKey → γ) {A B : List Donazione}
    (h : A.map statsProj = B.map statsProj) :
    A.map (fun d => g (statsProj d)) = B.map (fun d => g (statsProj d)) := by
  have h' := congrArg (List.map g) h
  simpa [List.map_map, Function.comp] using h'

/-- Equal stats projections transport through a `filter` whose condition
only looks at projection components. -/
theorem filter_statsProj (q : StatsKey → Bool) :
    ∀ {L L' : List Donazione}, L.map statsProj = L'.map statsProj →
      (L.filter (fun d => q (statsProj d))).map statsProj
        = (L'.filter (fun d => q (statsProj d))).map statsProj := by
  intro L
  induction L with
  | nil =>
    intro L' h
    cases L' with
    | nil => rfl
    | cons d' M => simp at h
  | cons d M ih =>
    intro L' h
    cases L' with
    | nil => simp at h
    | cons d' M' =>
      simp only [List.map_cons, List.cons.injEq] at h
      obtain ⟨h1, h2⟩ := h
      simp only [List.filter_cons, h1]
      by_cases hq : q (statsProj d') = true
      · simp only [hq, if_pos, List.map_cons, h1, List.cons.injEq, true_and]
        exact ih h2
      · simp only [hq, Bool.false_eq_true, if_false]
        exact ih h2

/-- Lists with equal stats projections have equal length. -/
theorem length_of_map_statsProj {A B : List Donazione}
    (h : A.map statsProj = B.map statsProj) : A.length = B.length := by
  have h' := congrArg List.length h
  simpa using h'

/-- The stats `getStats` only depends on the stats projection of the ledger. -/
theorem getStats_congr {L L' : List Donazione}
    (h : L.map statsProj = L'.map statsProj) : getStats L = getStats L' := by
  have hcomp := filter_statsProj (fun k => k.status == DStatus.completed) h
  have himp : (L.filter (fun d => d.status == DStatus.completed)).map (fun d => d.importo)
      = (L'.filter (fun d => d.status == DStatus.completed)).map (fun d => d.importo) :=
    map_proj_comp (fun k => k.importo) hcomp
  have hsum := congrArg List.sum himp
  have hlen : (L.filter (fun d => d.status == DStatus.completed)).length
      = (L'.filter (fun d => d.status == DStatus.completed)).length :=
    length_of_map_statsProj hcomp
  have hrecl : (L.filter (fun d => d.tipo == "ricorrente" && d.recurringActive)).length
      = (L'.filter (fun d => d.tipo == "ricorrente" && d.recurringActive)).length :=
    length_of_map_statsProj
      (filter_statsProj (fun k => k.tipo == "ricorrente" && k.recurringActive) h)
  have hfaill : (L.filter (fun d => d.status == DStatus.failed)).length
      = (L'.filter (fun d => d.status == DStatus.failed)).length :=
    length_of_map_statsProj (filter_statsProj (fun k => k.status == DStatus.failed) h)
  have hbt : (fun c => (((L.filter (fun d => d.status == DStatus.completed)).filter
          (fun d => d.categoria == c)).map (fun d => d.importo)).sum)
      = (fun c => (((L'.filter (fun d => d.status == DStatus.completed)).filter
          (fun d => d.categoria == c)).map (fun d => d.importo)).sum) := by
    funext c
    exact congrArg List.sum (map_proj_comp (fun k => k.importo)
      (filter_statsProj (fun k => k.categoria == c) hcomp))
  have hbc : (fun c => ((L.filter (fun d => d.status == DStatus.completed)).filter
          (fun d => d.categoria == c)).length)
      = (fun c => ((L'.filter (fun d => d.status == DStatus.completed)).filter
          (fun d => d.categoria == c)).length) := by
    funext c
    exact length_of_map_statsProj (filter_statsProj (fun k => k.categoria == c) hcomp)
  simp only [getStats]
  rw [hsum, hlen, hrecl, hfaill, hbt, hbc]

/-- Applying the success update a second time changes no stats-relevant
field of any record. -/
theorem hps_twice_statsProj (pid : String) (ch : Option String) (t₁ t₂ : ℕ) :
    ∀ L : List Donazione,
      (handlePaymentSuccess pid ch t₂ (handlePaymentSuccess pid ch t₁ L)).map statsProj
        = (handlePaymentSuccess pid ch t₁ L).map statsProj := by
  intro L
  induction L with
  | nil => rfl
  | cons d M ih =>
    by_cases h : d.stripePaymentIntentId = some pid
    · simp [handlePaymentSuccess, updateFirst, successUpdate, statsProj, h]
    · simp only [handlePaymentSuccess, updateFirst, beq_iff_eq, h, if_neg, if_false,
        List.map_cons]
      simp only [handlePaymentSuccess] at ih
      rw [ih]

/-- C2, counterexample: applying the same success webhook twice does not
yield the same final ledger state as applying it once.  On a processing
donation for intent pi_1, the first application at time 1000 stamps the
payment timestamps with 1000; replaying the identical event at time 2000
rewrites them to 2000, so the record is mutated even though its status was
already the event's target. -/
theorem c2_counterexample_second_application_mutates_record :
    handlePaymentSuccess "pi_1" (some "ch_1") 2000
        (handlePaymentSuccess "pi_1" (some "ch_1") 1000 [insertedDon])
      ≠ handlePaymentSuccess "pi_1" (some "ch_1") 1000 [insertedDon] := by
  decide

/-- C2 (amended): applying the same success webhook event twice leaves every
record's statistics-relevant fields (status, amount, category, kind,
recurring flag) — and therefore the donation totals, success and failure
counts of `getStats` — exactly as after one application, and creates no
record; the second delivery does however re-stamp the matched record's
timestamps, because the code has no already-applied guard. -/
theorem c2_amended_stats_idempotent (L : List Donazione) (pid : String)
    (ch : Option String) (t₁ t₂ : ℕ) :
    (handlePaymentSuccess pid ch t₂ (handlePaymentSuccess pid ch t₁ L)).map statsProj
        = (handlePaymentSuccess pid ch t₁ L).map statsProj
      ∧ getStats (handlePaymentSuccess pid ch t₂ (handlePaymentSuccess pid ch t₁ L))
        = getStats (handlePaymentSuccess pid ch t₁ L)
      ∧ (handlePaymentSuccess pid ch t₂ (handlePaymentSuccess pid ch t₁ L)).length
        = (handlePaymentSuccess pid ch t₁ L).length := by
  refine ⟨hps_twice_statsProj pid ch t₁ t₂ L,
    getStats_congr (hps_twice_statsProj pid ch t₁ t₂ L),
    length_of_map_statsProj (hps_twice_statsProj pid ch t₁ t₂ L)⟩

/-- C3, counterexample: a success webhook delivered for a donation that is
already refunded performs the transition refunded to completed — an edge
that is not on the spec's status graph — instead of leaving the record
unchanged as a no-op. -/
theorem c3_counterexample_offgraph_transition_applied :
    handlePaymentSuccess "pi_1" none 5 [refundedDon] ≠ [refundedDon]
      ∧ (handlePaymentSuccess "pi_1" none 5 [refundedDon]).map (fun d => d.status)
        = [DStatus.completed]
      ∧ refundedDon.status = DStatus.refunded
      ∧ specAllowedEdge DStatus.refunded DStatus.completed = false := by
  refine ⟨by decide, by decide, rfl, rfl⟩

/-- C3 (amended): the webhook path applies the event's target status to the
first matching record unconditionally — with no transition guard, so
off-graph transitions such as refunded to completed do occur — and every
record it produces either carries the target status completed or is an
untouched original record (in particular a webhook never moves a record to
pending or cancelled). -/
theorem c3_amended_webhook_sets_target_unconditionally :
    (∀ (pid : String) (ch : Option String) (now : ℕ)
        (pre : List Donazione) (d : Donazione) (rest : List Donazione),
      (∀ x ∈ pre, x.stripePaymentIntentId ≠ some pid) →
      d.stripePaymentIntentId = some pid →
      handlePaymentSuccess pid ch now (pre ++ d :: rest)
        = pre ++ successUpdate ch now d :: rest)
    ∧ (∀ (pid : String) (ch : Option String) (now : ℕ) (L : List Donazione)
        (d' : Donazione), d' ∈ handlePaymentSuccess pid ch now L →
      d'.status = DStatus.completed ∨ d' ∈ L) := by
  constructor
  · intro pid ch now pre d rest hpre hd
    refine updateFirst_decomp pre d rest ?_ ?_
    · intro x hx
      have := hpre x hx
      simpa using this
    · simpa using hd
  · intro pid ch now L d' h
    rcases updateFirst_mem h with h' | ⟨x, _, hfx⟩
    · exact Or.inr h'
    · exact Or.inl (by rw [hfx]; rfl)

/-- C3, witness: the decomposition applied to the refunded sample donation
alone in the ledger: the success webhook rewrites it to completed. -/
theorem c3_witness :
    handlePaymentSuccess "pi_1" none 5 ([] ++ refundedDon :: [])
        = [] ++ successUpdate none 5 refundedDon :: []
      ∧ (successUpdate none 5 refundedDon).status = DStatus.completed := by
  refine ⟨c3_amended_webhook_sets_target_unconditionally.1 "pi_1" none 5 [] refundedDon []
    (by intro x hx; cases hx) (by decide), rfl⟩

/-- The cent amount the gateway is sent for the 50-euro sample request. -/
theorem round_cents_sample : round (((50 : ℚ)) * 100) = 5000 := by
  have h : ((50 : ℚ) * 100) = ((5000 : ℤ) : ℚ) := by norm_num
  rw [h, round_intCast]

/-- The 50-euro sample request passes every validation check. -/
theorem sample_validation : validationCheck sampleReq = none := by
  simp only [validationCheck, sampleReq]
  rw [round_cents_sample]
  decide

/-- On gateway success, `createPaymentIntent` on the sample request emits
exactly the gateway call followed by the insertion of `insertedDon`. -/
theorem sample_create_ok_effects :
    (createPaymentIntent sampleReq (GatewayOutcome.ok "pi_1" "sec") sampleEnv 0).effects
      = [requestGatewayEffect sampleReq, LedgerEffect.ledgerInsert insertedDon] := by
  simp only [createPaymentIntent, sample_validation, gatewayPhase]
  congr 1

/-- The gateway call of the sample request carries 5000 cents. -/
theorem sample_gateway_effect :
    requestGatewayEffect sampleReq
      = LedgerEffect.gatewayCreate 5000 "eur"
          { email := "a@b.com", nome := "Ann Lee", categoria := "generale"
            organization := "SDA_ITALIA" }
          none "Donazione SDA Italia - generale" := by
  simp only [requestGatewayEffect, sampleReq, Option.getD_some, Option.getD_none]
  rw [round_cents_sample]
  decide

/-- The creation response reports the cent amount divided by 100, which is
50 for the sample request. -/
theorem sample_create_ok_amount :
    (createPaymentIntent sampleReq (GatewayOutcome.ok "pi_1" "sec") sampleEnv
      0).reportedAmount = some (50 : ℚ) := by
  have hvalid : donazioneSchemaValid (mkDonazione sampleReq "pi_1" 0) = true := by
    decide
  simp only [createPaymentIntent, sample_validation]
  simp only [gatewayPhase]
  rw [if_pos hvalid]
  simp only [sampleReq, Option.getD_some]
  rw [round_cents_sample]
  norm_num

/-- C4, code bug: money units are mixed.  For the valid 50-euro request, the
gateway is sent 5000 minor units while the ledger row stores 50; the
creation response reports amount 50, but the confirm-payment, recent and
stats read paths all render the stored amount divided by 100, reporting one
half for the same donation. -/
theorem c4_code_bug_unit_mismatch_eval :
    (createPaymentIntent sampleReq (GatewayOutcome.ok "pi_1" "sec") sampleEnv 0).effects
        = [requestGatewayEffect sampleReq, LedgerEffect.ledgerInsert insertedDon]
      ∧ requestGatewayEffect sampleReq
        = LedgerEffect.gatewayCreate 5000 "eur"
            { email := "a@b.com", nome := "Ann Lee", categoria := "generale"
              organization := "SDA_ITALIA" }
            none "Donazione SDA Italia - generale"
      ∧ insertedDon.importo = 50
      ∧ insertedDon.importo ≠ (5000 : ℚ)
      ∧ (createPaymentIntent sampleReq (GatewayOutcome.ok "pi_1" "sec") sampleEnv
          0).reportedAmount = some 50
      ∧ (confirmPayment (some "pi_1") "succeeded" (some "ch_1") 7 [insertedDon]).2.2
        = some (1 / 2)
      ∧ (formatRecent (successUpdate (some "ch_1") 7 insertedDon)).amount = 1 / 2
      ∧ statsRenderedTotal [successUpdate (some "ch_1") 7 insertedDon] = 1 / 2
      ∧ (1 / 2 : ℚ) ≠ 50 := by
  refine ⟨sample_create_ok_effects, sample_gateway_effect, rfl, by decide,
    sample_create_ok_amount, ?_, ?_, ?_, by norm_num⟩
  · rw [show (confirmPayment (some "pi_1") "succeeded" (some "ch_1") 7
        [insertedDon]).2.2 = some ((50 : ℚ) / 100) from rfl]
    norm_num
  · rw [show (formatRecent (successUpdate (some "ch_1") 7 insertedDon)).amount
        = (50 : ℚ) / 100 from rfl]
    norm_num
  · rw [show statsRenderedTotal [successUpdate (some "ch_1") 7 insertedDon]
        = ((50 : ℚ) + 0) / 100 from rfl]
    norm_num

/-- C7, code bug: the beneficiary payload contains the full, unmasked IBAN
from the environment under `fullIban`, alongside the masked view — the
complete account number is client-visible although the endpoint has no
authentication. -/
theorem c7_code_bug_full_iban_leak_eval :
    (getBeneficiaryInfo sampleEnv).fullIban = "IT60X0542811101000000123456"
      ∧ (getBeneficiaryInfo sampleEnv).iban = "****3456"
      ∧ (getBeneficiaryInfo sampleEnv).fullIban ≠ (getBeneficiaryInfo sampleEnv).iban
      ∧ maskIBAN "IT60X0542811101000000123456" = "****3456" := by
  refine ⟨rfl, by decide, by decide, by decide⟩

/-- On an unmapped gateway failure, `createPaymentIntent` on the sample
request answers 500 after having emitted only the gateway call — no ledger
row exists. -/
theorem sample_create_err :
    createPaymentIntent sampleReq (GatewayOutcome.errOther "boom") sampleEnv 0
      = { status := 500, effects := [requestGatewayEffect sampleReq]
          message := "Errore nel processamento del pagamento"
          reportedAmount := none, clientSecret := none, maskedIban := none } := by
  simp only [createPaymentIntent, sample_validation, gatewayPhase]

/-- C1, counterexample: for the valid 50-euro request failing at the gateway
with an unmapped error, the claim's already-written pending ledger row does
not exist — the code calls the gateway before any insert, so the 500
response leaves no ledger row at all, pending or otherwise. -/
theorem c1_counterexample_no_pending_row_on_gateway_failure :
    ¬ (∃ d, LedgerEffect.ledgerInsert d
          ∈ (createPaymentIntent sampleReq (GatewayOutcome.errOther "boom") sampleEnv
              0).effects
        ∧ d.status = DStatus.pending)
      ∧ (createPaymentIntent sampleReq (GatewayOutcome.errOther "boom") sampleEnv
          0).status = 500 := by
  constructor
  · rintro ⟨d, hmem, _⟩
    rw [sample_create_err, sample_gateway_effect] at hmem
    simp only [List.mem_singleton] at hmem
    exact LedgerEffect.noConfusion hmem
  · rw [sample_create_err]

/-- The 50.50-euro request passes every controller validation check. -/
theorem frac_validation : validationCheck fracReq = none := by
  have he : fiftyAndHalf = ((101 : ℤ) : ℚ) / ((2 : ℕ) : ℚ) :=
    (Rat.num_div_den fiftyAndHalf).symm
  have h1 : round (fiftyAndHalf * 100) = 5050 := by
    have h : (fiftyAndHalf * 100) = ((5050 : ℤ) : ℚ) := by rw [he]; norm_num
    rw [h, round_intCast]
  simp only [validationCheck, fracReq, sampleReq]
  rw [h1]
  decide

/-- The empty-category request passes every controller validation check:
the category check is skipped for the falsy empty string. -/
theorem emptycat_validation : validationCheck emptyCatReq = none := by
  simp only [validationCheck, emptyCatReq, sampleReq]
  rw [round_cents_sample]
  decide

/-- C1 (amended): for every donation request that passes the controller's
validation, the orchestrator calls the gateway first (the first observable
effect is the payment-intent creation with the donor metadata); every
ledger row it ever inserts already carries the payment-intent id with
status processing (never pending); on gateway success it attempts exactly
one insert, after the gateway call — which succeeds with a 200 exactly
when the schema's own validators accept the row, and otherwise (for
controller-valid inputs such as fractional euro amounts or an empty
category) answers 500 with no ledger row even though the intent was
created; on an unmapped gateway error it answers 500 with no ledger row at
all; and on every gateway failure the response carries the mapped status. -/
theorem c1_amended_gateway_first_single_processing_insert
    (req : DonationRequest) (gw : GatewayOutcome) (env : BeneficiaryEnv) (now : ℕ)
    (h : validationCheck req = none) :
    ((createPaymentIntent req gw env now).effects.head?).map isGatewayCreate
        = some true
      ∧ (∀ d, LedgerEffect.ledgerInsert d ∈ (createPaymentIntent req gw env now).effects →
          d.status = DStatus.processing ∧ d.stripePaymentIntentId.isSome = true)
      ∧ (∀ pid sec, gw = GatewayOutcome.ok pid sec →
          donazioneSchemaValid (mkDonazione req pid now) = true →
          (createPaymentIntent req gw env now).status = 200
            ∧ (createPaymentIntent req gw env now).effects
              = [requestGatewayEffect req,
                 LedgerEffect.ledgerInsert (mkDonazione req pid now)]
            ∧ (mkDonazione req pid now).status = DStatus.processing
            ∧ (mkDonazione req pid now).stripePaymentIntentId = some pid
            ∧ (mkDonazione req pid now).importo = req.importo.getD 0)
      ∧ (∀ pid sec, gw = GatewayOutcome.ok pid sec →
          donazioneSchemaValid (mkDonazione req pid now) = false →
          (createPaymentIntent req gw env now).status = 500
            ∧ (createPaymentIntent req gw env now).effects = [requestGatewayEffect req])
      ∧ (∀ msg, gw = GatewayOutcome.errOther msg →
          (createPaymentIntent req gw env now).status = 500
            ∧ (createPaymentIntent req gw env now).effects = [requestGatewayEffect req])
      ∧ ((∀ pid sec, gw ≠ GatewayOutcome.ok pid sec) →
          (createPaymentIntent req gw env now).status = gatewayHttpStatus gw) := by
  have hcp : createPaymentIntent req gw env now = gatewayPhase req gw env now := by
    simp only [createPaymentIntent, h]
  refine ⟨?_, ?_, ?_, ?_, ?_, ?_⟩
  · rw [hcp]
    cases gw
    case ok pid sec =>
      by_cases hval : donazioneSchemaValid (mkDonazione req pid now) = true
      · simp [gatewayPhase, hval, isGatewayCreate, requestGatewayEffect]
      · simp [gatewayPhase, hval, isGatewayCreate, requestGatewayEffect]
    all_goals simp [gatewayPhase, isGatewayCreate, requestGatewayEffect]
  · intro d hd
    rw [hcp] at hd
    cases gw
    case ok pid sec =>
      by_cases hval : donazioneSchemaValid (mkDonazione req pid now) = true
      · simp [gatewayPhase, hval, requestGatewayEffect] at hd
        subst hd
        exact ⟨rfl, rfl⟩
      · simp [gatewayPhase, hval, requestGatewayEffect] at hd
    all_goals simp [gatewayPhase, requestGatewayEffect] at hd
  · intro pid sec hgw hval
    subst hgw
    rw [hcp]
    simp only [gatewayPhase]
    rw [if_pos hval]
    exact ⟨rfl, rfl, rfl, rfl, rfl⟩
  · intro pid sec hgw hval
    subst hgw
    rw [hcp]
    simp only [gatewayPhase]
    rw [if_neg (by simp [hval])]
    exact ⟨rfl, rfl⟩
  · intro msg hgw
    subst hgw
    rw [hcp]
    exact ⟨rfl, rfl⟩
  · intro hne
    rw [hcp]
    cases gw
    case ok pid sec => exact absurd rfl (hne pid sec)
    all_goals rfl

/-- C1, witness: the amended theorem applied at concrete inputs with every
hypothesis discharged by computation — the valid 50-euro request under an
unmapped gateway failure (500, only the gateway effect) and under gateway
success with a schema-valid row (200, gateway call first, single processing
insert); the controller-valid 50.50-euro request and empty-category
request, whose rows the schema validators reject, under gateway success
(500, no ledger row despite the created intent). -/
theorem c1_witness :
    validationCheck sampleReq = none
      ∧ (createPaymentIntent sampleReq (GatewayOutcome.errOther "boom") sampleEnv
          0).status = 500
      ∧ (createPaymentIntent sampleReq (GatewayOutcome.errOther "boom") sampleEnv
          0).effects = [requestGatewayEffect sampleReq]
      ∧ ((createPaymentIntent sampleReq (GatewayOutcome.ok "pi_1" "sec") sampleEnv
          0).effects.head?).map isGatewayCreate = some true
      ∧ donazioneSchemaValid (mkDonazione sampleReq "pi_1" 0) = true
      ∧ (createPaymentIntent sampleReq (GatewayOutcome.ok "pi_1" "sec") sampleEnv
          0).status = 200
      ∧ (createPaymentIntent sampleReq (GatewayOutcome.ok "pi_1" "sec") sampleEnv
          0).effects
        = [requestGatewayEffect sampleReq,
           LedgerEffect.ledgerInsert (mkDonazione sampleReq "pi_1" 0)]
      ∧ validationCheck fracReq = none
      ∧ donazioneSchemaValid (mkDonazione fracReq "pi_1" 0) = false
      ∧ (createPaymentIntent fracReq (GatewayOutcome.ok "pi_1" "sec") sampleEnv
          0).status = 500
      ∧ (createPaymentIntent fracReq (GatewayOutcome.ok "pi_1" "sec") sampleEnv
          0).effects = [requestGatewayEffect fracReq]
      ∧ validationCheck emptyCatReq = none
      ∧ donazioneSchemaValid (mkDonazione emptyCatReq "pi_1" 0) = false
      ∧ (createPaymentIntent emptyCatReq (GatewayOutcome.ok "pi_1" "sec") sampleEnv
          0).status = 500 := by
  refine ⟨sample_validation, ?_, ?_, ?_, by decide, ?_, ?_, frac_validation,
    by decide, ?_, ?_, emptycat_validation, by decide, ?_⟩
  · exact ((c1_amended_gateway_first_single_processing_insert sampleReq
      (GatewayOutcome.errOther "boom") sampleEnv 0 sample_validation).2.2.2.2.1
      "boom" rfl).1
  · exact ((c1_amended_gateway_first_single_processing_insert sampleReq
      (GatewayOutcome.errOther "boom") sampleEnv 0 sample_validation).2.2.2.2.1
      "boom" rfl).2
  · exact (c1_amended_gateway_first_single_processing_insert sampleReq
      (GatewayOutcome.ok "pi_1" "sec") sampleEnv 0 sample_validation).1
  · exact ((c1_amended_gateway_first_single_processing_insert sampleReq
      (GatewayOutcome.ok "pi_1" "sec") sampleEnv 0 sample_validation).2.2.1
      "pi_1" "sec" rfl (by decide)).1
  · exact ((c1_amended_gateway_first_single_processing_insert sampleReq
      (GatewayOutcome.ok "pi_1" "sec") sampleEnv 0 sample_validation).2.2.1
      "pi_1" "sec" rfl (by decide)).2.1
  · exact ((c1_amended_gateway_first_single_processing_insert fracReq
      (GatewayOutcome.ok "pi_1" "sec") sampleEnv 0 frac_validation).2.2.2.1
      "pi_1" "sec" rfl (by decide)).1
  · exact ((c1_amended_gateway_first_single_processing_insert fracReq
      (GatewayOutcome.ok "pi_1" "sec") sampleEnv 0 frac_validation).2.2.2.1
      "pi_1" "sec" rfl (by decide)).2
  · exact ((c1_amended_gateway_first_single_processing_insert emptyCatReq
      (GatewayOutcome.ok "pi_1" "sec") sampleEnv 0 emptycat_validation).2.2.2.1
      "pi_1" "sec" rfl (by decide)).1

/-- C6: a webhook that fails signature verification — or arrives while no
webhook secret is configured — receives 400 and the ledger is untouched; a
correctly signed webhook whose payment-intent id (or, for refunds, charge
id) matches no record, or whose event type is unhandled, receives 200 with
no donation record created or modified; and no webhook ever changes the
number of ledger records. -/
theorem c6_webhook_responses_ledger_untouched
    (ev : StripeEvent) (L : List Donazione) (now : ℕ) (sc sv : Bool) :
    handleWebhook sc false ev L now = (400, L)
      ∧ handleWebhook false sv ev L now = (400, L)
      ∧ (ev.type = "payment_intent.succeeded" →
          (∀ d ∈ L, d.stripePaymentIntentId ≠ some ev.objectId) →
          handleWebhook true true ev L now = (200, L))
      ∧ (ev.type = "payment_intent.payment_failed" →
          (∀ d ∈ L, d.stripePaymentIntentId ≠ some ev.objectId) →
          handleWebhook true true ev L now = (200, L))
      ∧ (ev.type = "charge.refunded" →
          (∀ d ∈ L, d.stripeChargeId ≠ some ev.objectId) →
          handleWebhook true true ev L now = (200, L))
      ∧ (ev.type ∉ (["payment_intent.succeeded", "payment_intent.payment_failed",
            "charge.refunded"] : List String) →
          handleWebhook true true ev L now = (200, L))
      ∧ ((handleWebhook sc sv ev L now).2).length = L.length := by
  refine ⟨?_, ?_, ?_, ?_, ?_, ?_, ?_⟩
  · cases sc <;> rfl
  · rfl
  · intro ht hn
    have hid : handlePaymentSuccess ev.objectId ev.chargeId now L = L :=
      updateFirst_of_no_match fun d hd => beq_eq_false_iff_ne.mpr (hn d hd)
    simp [handleWebhook, ht, hid]
  · intro ht hn
    have hid : handlePaymentFailed ev.objectId ev.lastErrorMessage ev.attempts now L
        = L :=
      updateFirst_of_no_match fun d hd => beq_eq_false_iff_ne.mpr (hn d hd)
    simp [handleWebhook, ht, hid]
  · intro ht hn
    have hid : handleRefund ev.objectId ev.refunded now L = L :=
      updateFirst_of_no_match fun d hd => beq_eq_false_iff_ne.mpr (hn d hd)
    simp [handleWebhook, ht, hid]
  · intro hmem
    simp only [List.mem_cons, List.mem_singleton, not_or] at hmem
    obtain ⟨h1, h2, h3⟩ := hmem
    simp [handleWebhook, h1, h2, h3]
  · unfold handleWebhook
    split
    · rfl
    · split
      · rfl
      · split
        · simp [handlePaymentSuccess, updateFirst_length]
        · split
          · simp [handlePaymentFailed, updateFirst_length]
          · split
            · simp [handleRefund, updateFirst_length]
            · rfl

/-- C6, witness: the general theorem instantiated on a one-record ledger and
a succeeded-payment event whose intent id matches nothing (hypotheses
discharged by computation), an invalid-signature delivery, and an unhandled
event type. -/
theorem c6_witness :
    handleWebhook true false unknownPidEvent [insertedDon] 0 = (400, [insertedDon])
      ∧ unknownPidEvent.type = "payment_intent.succeeded"
      ∧ (∀ d ∈ [insertedDon],
          d.stripePaymentIntentId ≠ some unknownPidEvent.objectId)
      ∧ handleWebhook true true unknownPidEvent [insertedDon] 0 = (200, [insertedDon])
      ∧ handleWebhook true true { unknownPidEvent with type := "customer.created" }
          [insertedDon] 0 = (200, [insertedDon])
      ∧ ((handleWebhook true true unknownPidEvent [insertedDon] 0).2).length
        = ([insertedDon] : List Donazione).length := by
  refine ⟨(c6_webhook_responses_ledger_untouched unknownPidEvent [insertedDon] 0 true
      true).1, rfl, by decide, ?_, ?_, ?_⟩
  · exact (c6_webhook_responses_ledger_untouched unknownPidEvent [insertedDon] 0 true
      true).2.2.1 rfl (by decide)
  · exact (c6_webhook_responses_ledger_untouched
      { unknownPidEvent with type := "customer.created" } [insertedDon] 0 true
      true).2.2.2.2.2.1 (by decide)
  · exact (c6_webhook_responses_ledger_untouched unknownPidEvent [insertedDon] 0 true
      true).2.2.2.2.2.2

/-- After any request, the client's stored window record is the effective
window with its count incremented — whether or not the request was
rejected. -/
theorem rlStep_store_self (L : SimpleRateLimiter) (s : RLStore) (ip : String)
    (now : ℕ) :
    (rlStep L s ip now).1 ip
      = some { count := (effectiveWindow L s ip now).count + 1
               resetTime := (effectiveWindow L s ip now).resetTime } := by
  simp only [rlStep]
  split <;> simp

/-- C5: the rate limiter middleware increments the client's window counter
(creating or resetting the record when absent or expired), rejects with 429
and a retry-after of the ceiling of the window's remaining seconds exactly
when the post-increment count exceeds the maximum, carries the
limit/current/remaining/reset metadata on allowed requests, and — with
five requests allowed per window — admits the first five requests, rejects
the sixth inside the window, and admits the next request once the window
has elapsed. -/
theorem c5_rate_limiter_window :
    (∀ (L : SimpleRateLimiter) (s : RLStore) (ip : String) (now : ℕ),
        ((effectiveWindow L s ip now).count + 1 > L.maxRequests →
          (rlStep L s ip now).2 = LimitOutcome.rejected 429 L.message
            (((effectiveWindow L s ip now).resetTime - now + 999) / 1000)
            { limit := L.maxRequests
              current := (effectiveWindow L s ip now).count + 1
              remaining := L.maxRequests - ((effectiveWindow L s ip now).count + 1)
              resetTime := (effectiveWindow L s ip now).resetTime })
        ∧ ((effectiveWindow L s ip now).count + 1 ≤ L.maxRequests →
          (rlStep L s ip now).2 = LimitOutcome.allowed
            { limit := L.maxRequests
              current := (effectiveWindow L s ip now).count + 1
              remaining := L.maxRequests - ((effectiveWindow L s ip now).count + 1)
              resetTime := (effectiveWindow L s ip now).resetTime })
        ∧ (rlStep L s ip now).1 ip
          = some { count := (effectiveWindow L s ip now).count + 1
                   resetTime := (effectiveWindow L s ip now).resetTime })
      ∧ (∀ k, k < 5 → (rlStep limiter5 (scenarioStore k) "c" 0).2
          = LimitOutcome.allowed
              { limit := 5, current := k + 1, remaining := 4 - k, resetTime := 1000 })
      ∧ (rlStep limiter5 (scenarioStore 5) "c" 0).2
        = LimitOutcome.rejected 429 limiter5.message 1
            { limit := 5, current := 6, remaining := 0, resetTime := 1000 }
      ∧ (rlStep limiter5 ((rlStep limiter5 (scenarioStore 5) "c" 0).1) "c" 1001).2
        = LimitOutcome.allowed
            { limit := 5, current := 1, remaining := 4, resetTime := 2001 } := by
  refine ⟨?_, by decide, by decide, by decide⟩
  intro L s ip now
  refine ⟨fun h => ?_, fun h => ?_, rlStep_store_self L s ip now⟩
  · simp only [rlStep]
    rw [if_pos h]
  · simp only [rlStep]
    rw [if_neg (not_lt.mpr h)]

/-- C5, witness: the general conjunct applied to the sample store — client
a already holds three requests in a window ending exactly now, so a limiter
allowing two requests rejects the next request with a zero-second
retry-after — and the concrete six-request scenario facts. -/
theorem c5_witness :
    (effectiveWindow { maxRequests := 2, windowMs := 1000, message := "m" }
        sampleStore "a" 500).count + 1
      > ({ maxRequests := 2, windowMs := 1000, message := "m" } :
          SimpleRateLimiter).maxRequests
      ∧ (rlStep { maxRequests := 2, windowMs := 1000, message := "m" } sampleStore
          "a" 500).2
        = LimitOutcome.rejected 429 "m" 0
            { limit := 2, current := 4, remaining := 0, resetTime := 500 }
      ∧ (rlStep limiter5 (scenarioStore 5) "c" 0).2
        = LimitOutcome.rejected 429 limiter5.message 1
            { limit := 5, current := 6, remaining := 0, resetTime := 1000 } := by
  refine ⟨by decide, ?_, c5_rate_limiter_window.2.2.1⟩
  have h := (c5_rate_limiter_window.1 { maxRequests := 2, windowMs := 1000, message := "m" }
    sampleStore "a" 500).1 (by decide)
  have he : effectiveWindow { maxRequests := 2, windowMs := 1000, message := "m" }
      sampleStore "a" 500 = { count := 3, resetTime := 500 } := by decide
  rw [he] at h
  simpa using h

/-- C10: store invariants of the in-memory limiter.  Every request — also
one that is rejected — stores the incremented count; a stored window that
has not strictly passed its reset time (including a request arriving exactly
at the reset time) keeps its reset time, so later requests never extend the
window; a window counts as expired only strictly after its reset time, and
then the next request starts a fresh window with count 1; a step never
touches another client's record; `reset(ip)` reports whether a record
existed and deletes exactly that client's record; `resetAll()` empties the
store; and after either reset the client's next request starts with count 1
and reset time now plus the window duration. -/
theorem c10_rate_limiter_store_invariants (L : SimpleRateLimiter) (s : RLStore)
    (ip k : String) (now : ℕ) (cd : ClientData) :
    ((effectiveWindow L s ip now).count + 1 > L.maxRequests →
        (rlStep L s ip now).1 ip
          = some { count := (effectiveWindow L s ip now).count + 1
                   resetTime := (effectiveWindow L s ip now).resetTime })
      ∧ (s ip = some cd → now ≤ cd.resetTime →
          (rlStep L s ip now).1 ip
            = some { count := cd.count + 1, resetTime := cd.resetTime })
      ∧ (s ip = some cd → cd.resetTime < now →
          (rlStep L s ip now).1 ip
            = some { count := 1, resetTime := now + L.windowMs })
      ∧ (k ≠ ip → (rlStep L s ip now).1 k = s k)
      ∧ rlReset s ip = ((s ip).isSome, fun j => if j = ip then none else s j)
      ∧ (rlReset s ip).2 ip = none
      ∧ (rlStep L ((rlReset s ip).2) ip now).1 ip
        = some { count := 1, resetTime := now + L.windowMs }
      ∧ (∀ j, rlResetAll j = none)
      ∧ (rlStep L rlResetAll ip now).1 ip
        = some { count := 1, resetTime := now + L.windowMs } := by
  refine ⟨fun _ => rlStep_store_self L s ip now, fun hs hle => ?_, fun hs hlt => ?_,
    fun hk => ?_, rfl, ?_, ?_, fun j => rfl, ?_⟩
  · rw [rlStep_store_self L s ip now]
    have he : effectiveWindow L s ip now = cd := by
      simp [effectiveWindow, hs, not_lt.mpr hle]
    rw [he]
  · rw [rlStep_store_self L s ip now]
    have he : effectiveWindow L s ip now = { count := 0, resetTime := now + L.windowMs } := by
      simp [effectiveWindow, hs, hlt]
    rw [he]
  · simp only [rlStep]
    split <;> simp [hk]
  · simp [rlReset]
  · rw [rlStep_store_self L ((rlReset s ip).2) ip now]
    have he : effectiveWindow L ((rlReset s ip).2) ip now
        = { count := 0, resetTime := now + L.windowMs } := by
      simp [effectiveWindow, rlReset]
    rw [he]
  · rw [rlStep_store_self L rlResetAll ip now]
    have he : effectiveWindow L rlResetAll ip now
        = { count := 0, resetTime := now + L.windowMs } := by
      simp [effectiveWindow, rlResetAll]
    rw [he]

/-- C10, witness: the invariants applied to the sample store at the reset
boundary (time 500, count kept and window not extended), strictly after the
window (fresh count 1), for an untouched other client, and around the reset
operations. -/
theorem c10_witness :
    (rlStep limiter5 sampleStore "a" 500).1 "a"
        = some { count := 4, resetTime := 500 }
      ∧ (rlStep limiter5 sampleStore "a" 501).1 "a"
        = some { count := 1, resetTime := 1501 }
      ∧ (rlStep limiter5 sampleStore "a" 500).1 "b" = sampleStore "b"
      ∧ rlReset sampleStore "a"
        = ((sampleStore "a").isSome, fun j => if j = "a" then none else sampleStore j)
      ∧ (rlReset sampleStore "a").2 "a" = none
      ∧ (rlStep limiter5 ((rlReset sampleStore "a").2) "a" 0).1 "a"
        = some { count := 1, resetTime := 1000 }
      ∧ rlResetAll "a" = none
      ∧ (rlStep limiter5 rlResetAll "a" 0).1 "a"
        = some { count := 1, resetTime := 1000 } := by
  have h500 := c10_rate_limiter_store_invariants limiter5 sampleStore "a" "b" 500
    { count := 3, resetTime := 500 }
  have h501 := c10_rate_limiter_store_invariants limiter5 sampleStore "a" "b" 501
    { count := 3, resetTime := 500 }
  have h0 := c10_rate_limiter_store_invariants limiter5 sampleStore "a" "b" 0
    { count := 3, resetTime := 500 }
  exact ⟨h500.2.1 (by decide) (by decide), h501.2.2.1 (by decide) (by decide),
    h500.2.2.2.1 (by decide), h500.2.2.2.2.1, h500.2.2.2.2.2.1,
    h0.2.2.2.2.2.2.1, h0.2.2.2.2.2.2.2.1 "a", h0.2.2.2.2.2.2.2.2⟩

/-- Related records agree on status. -/
theorem sameUpTo_status {d d' : Donazione} (h : SameUpToAnonName d d') :
    d'.status = d.status := by
  obtain ⟨he, _⟩ := h
  rw [he]

/-- Related records agree on the payment-date sort key. -/
theorem sameUpTo_pagKey {d d' : Donazione} (h : SameUpToAnonName d d') :
    pagKey d' = pagKey d := by
  obtain ⟨he, _⟩ := h
  rw [he]
  rfl

/-- Related records format identically: an anonymous record renders the
fixed placeholder whatever its stored donor name. -/
theorem sameUpTo_formatRecent {d d' : Donazione} (h : SameUpToAnonName d d') :
    formatRecent d' = formatRecent d := by
  obtain ⟨he, hn⟩ := h
  rw [he]
  by_cases ha : d.anonimo = true
  · simp [formatRecent, ha]
  · rcases hn with hn | hn
    · exact absurd hn ha
    · simp [formatRecent, hn]

/-- The completed-status filter preserves the relation. -/
theorem forall₂_filter_completed {L L' : List Donazione}
    (h : List.Forall₂ SameUpToAnonName L L') :
    List.Forall₂ SameUpToAnonName
      (L.filter (fun d => d.status == DStatus.completed))
      (L'.filter (fun d => d.status == DStatus.completed)) := by
  induction h with
  | nil => exact List.Forall₂.nil
  | @cons a b as bs hab htl ih =>
    have hs : b.status = a.status := sameUpTo_status hab
    by_cases hc : a.status = DStatus.completed
    · simpa [List.filter_cons, hs, hc] using List.Forall₂.cons hab ih
    · simpa [List.filter_cons, hs, hc] using ih

/-- Descending insertion preserves the relation. -/
theorem forall₂_insertDesc {d d' : Donazione} (hd : SameUpToAnonName d d') :
    ∀ {xs xs' : List Donazione}, List.Forall₂ SameUpToAnonName xs xs' →
      List.Forall₂ SameUpToAnonName (insertDesc d xs) (insertDesc d' xs') := by
  intro xs xs' h
  induction h with
  | nil => exact List.Forall₂.cons hd List.Forall₂.nil
  | @cons a b as bs hab htl ih =>
    have h1 : pagKey b = pagKey a := sameUpTo_pagKey hab
    have h2 : pagKey d' = pagKey d := sameUpTo_pagKey hd
    by_cases hk : pagKey a < pagKey d
    · simpa [insertDesc, h1, h2, hk] using
        List.Forall₂.cons hd (List.Forall₂.cons hab htl)
    · simpa [insertDesc, h1, h2, hk] using List.Forall₂.cons hab ih

/-- The descending sort preserves the relation. -/
theorem forall₂_sortByPagDesc {L L' : List Donazione}
    (h : List.Forall₂ SameUpToAnonName L L') :
    List.Forall₂ SameUpToAnonName (sortByPagDesc L) (sortByPagDesc L') := by
  induction h with
  | nil => exact List.Forall₂.nil
  | @cons a b as bs hab htl ih =>
    simpa [sortByPagDesc] using forall₂_insertDesc hab ih

/-- Truncation preserves the relation. -/
theorem forall₂_takeSame (n : ℕ) :
    ∀ {xs xs' : List Donazione}, List.Forall₂ SameUpToAnonName xs xs' →
      List.Forall₂ SameUpToAnonName (xs.take n) (xs'.take n) := by
  induction n with
  | zero => intro xs xs' _; exact List.Forall₂.nil
  | succ n ih =>
    intro xs xs' h
    cases h with
    | nil => exact List.Forall₂.nil
    | cons hab htl => exact List.Forall₂.cons hab (ih htl)

/-- Related lists format to the same public listing. -/
theorem map_formatRecent_eq {xs xs' : List Donazione}
    (h : List.Forall₂ SameUpToAnonName xs xs') :
    xs.map formatRecent = xs'.map formatRecent := by
  induction h with
  | nil => rfl
  | @cons a b as bs hab htl ih =>
    simp only [List.map_cons, ih, List.cons.injEq, and_true]
    exact (sameUpTo_formatRecent hab).symm

/-- C8: the recent-donations listing is identical for any two ledgers that
differ only in the stored donor names of anonymous records — in particular,
for every completed donation stored with the anonymous flag, the listing
shows the fixed placeholder and never depends on the stored donor name. -/
theorem c8_recent_donations_anonymous_noninterference
    (L L' : List Donazione) (q : Option ℕ)
    (h : List.Forall₂ SameUpToAnonName L L') :
    getRecentDonations L q = getRecentDonations L' q := by
  unfold getRecentDonations
  exact map_formatRecent_eq
    (forall₂_takeSame _ (forall₂_sortByPagDesc (forall₂_filter_completed h)))

/-- C8, witness: two concrete ledgers holding the same anonymous completed
donation under two different stored donor names (plus an identical named
donation) produce the same listing. -/
theorem c8_witness :
    List.Forall₂ SameUpToAnonName [anonDonA, namedDonB] [anonDonA', namedDonB]
      ∧ anonDonA.anonimo = true
      ∧ anonDonA.nome ≠ anonDonA'.nome
      ∧ getRecentDonations [anonDonA, namedDonB] (some 10)
        = getRecentDonations [anonDonA', namedDonB] (some 10) := by
  have hf : List.Forall₂ SameUpToAnonName [anonDonA, namedDonB] [anonDonA', namedDonB] :=
    List.Forall₂.cons ⟨rfl, Or.inl rfl⟩
      (List.Forall₂.cons ⟨rfl, Or.inr rfl⟩ List.Forall₂.nil)
  exact ⟨hf, rfl, by decide,
    c8_recent_donations_anonymous_noninterference [anonDonA, namedDonB]
      [anonDonA', namedDonB] (some 10) hf⟩

/-- C9: the day-file read-back processes lines independently and in order —
it distributes over concatenation, a line from which no JSON object can be
extracted and parsed (or a blank line) is skipped without disturbing the
entries before or after it, and the result is exactly the parses of the
well-formed lines in order (the `filterMap` of the non-blank lines), both
for the line pipeline and for a whole file content. -/
theorem c9_read_day_transactions_skip_malformed {α : Type}
    (parse : String → Option α) (xs ys : List String) (b : String)
    (content : String) :
    readDayLines parse (xs ++ ys) = readDayLines parse xs ++ readDayLines parse ys
      ∧ (parseLogLine parse b = none ∨ jsTrim b = "" →
          readDayLines parse (xs ++ b :: ys)
            = readDayLines parse xs ++ readDayLines parse ys)
      ∧ readDayLines parse xs
        = (xs.filter (fun l => jsTrim l != "")).filterMap (parseLogLine parse)
      ∧ readDayTransactions parse content
        = ((splitLinesStr content).filter (fun l => jsTrim l != "")).filterMap
            (parseLogLine parse) := by
  refine ⟨?_, ?_, ?_, ?_⟩
  · simp [readDayLines, List.filter_append, List.map_append, List.reduceOption_append]
  · intro h
    by_cases hb : jsTrim b = ""
    · simp [readDayLines, List.filter_append, List.filter_cons, hb, List.map_append,
        List.reduceOption_append]
    · rcases h with h | h
      · simp [readDayLines, List.filter_append, List.filter_cons, hb, List.map_append,
          List.reduceOption_append, h]
      · exact absurd h hb
  · simp [readDayLines, List.reduceOption, List.filterMap_map]
  · simp [readDayTransactions, readDayLines, List.reduceOption, List.filterMap_map]

/-- C9, witness: the skip property applied to a concrete three-line day —
a well-formed donation line, a malformed line, a well-formed webhook line —
with the sample parse function: the malformed line is skipped, the two
records around it are both returned, in order. -/
theorem c9_witness :
    parseLogLine sampleParse "garbage line" = none
      ∧ readDayLines sampleParse
          (["[10:00] [DONATION] \x7b\x22a\x22:1\x7d"] ++ "garbage line"
            :: ["[10:01] [WEBHOOK] \x7b\x22b\x22:2\x7d"])
        = readDayLines sampleParse ["[10:00] [DONATION] \x7b\x22a\x22:1\x7d"]
          ++ readDayLines sampleParse ["[10:01] [WEBHOOK] \x7b\x22b\x22:2\x7d"]
      ∧ readDayLines sampleParse
          (["[10:00] [DONATION] \x7b\x22a\x22:1\x7d"] ++ "garbage line"
            :: ["[10:01] [WEBHOOK] \x7b\x22b\x22:2\x7d"]) = [1, 2] := by
  refine ⟨by decide, ?_, by decide⟩
  exact (c9_read_day_transactions_skip_malformed sampleParse
    ["[10:00] [DONATION] \x7b\x22a\x22:1\x7d"]
    ["[10:01] [WEBHOOK] \x7b\x22b\x22:2\x7d"] "garbage line" "").2.1
    (Or.inl (by decide))
